import Mathlib

/-!
Shallow embedding of the maritime risk scoring core of the PSC-dashboard
repository (src/testing-validation-files/risk_calculator_clean.py,
class RiskCalculator_Maritime), together with theorems settling the
specification claims about it.

Modelling conventions:
* Python floats are modelled by exact rationals (ℚ).  All constants of the
  source (0.4, 8, 25, band bounds, modifiers, ...) are exact decimals, so ℚ
  reproduces the intended real-number arithmetic.  Python `round(x, n)`
  rounds half-to-even on binary floats; ties never occur at any value
  relevant to a claim, and we model it with `round` (half-up) on ℚ scaled
  by 10^n.
* Python dicts of vessel data become structures; missing optional keys
  (`classification_society`, `performance_trend`, `dwt`) become `Option`
  fields with the source's `.get` defaults applied at use sites.
* The fallible `calculateRiskScore` (which returns an `{'error': ...}`
  dict on failure) becomes `Except String RiskResult`.
* `numpy` matrices become functions `ℕ → ℕ → ℕ` (cell counts); the
  `+= 1` cell update becomes the `bump` function.
-/

namespace PSC

/-- Row of `vessel_master.json`'s `vessels` list, the fields the risk core
reads.  `classification_society` and `dwt` are read with `.get` in the
source, hence optional. -/
structure VesselInfo where
  vessel_name : String
  age_years : ℚ
  vessel_type : String
  flag_state : String
  classification_society : Option String
  built_year : ℤ
  dwt : Option ℚ
deriving Repr, DecidableEq

/-- Row of `inspection_fact.json`'s `vessel_performance` list. -/
structure InspectionInfo where
  vessel_name : String
  inspections : ℕ
  avg_deficiencies : ℚ
  detention_rate : ℚ
  clean_rate : ℚ
  performance_trend : Option String
deriving Repr, DecidableEq

/-- The two datasets loaded in `_load_data`. -/
structure CalculatorData where
  vessels : List VesselInfo
  vessel_performance : List InspectionInfo
deriving Repr, DecidableEq

/-- Python `round(x, d)` modelled on ℚ: scale by `10^d`, round to the
nearest integer, scale back. -/
def roundTo (x : ℚ) (d : ℕ) : ℚ := ((round (x * 10 ^ d) : ℤ) : ℚ) / 10 ^ d

/-- `max lo (min hi x)`, the clamp idiom `max(lo, min(hi, x))` of the source. -/
def clamp (lo hi x : ℚ) : ℚ := max lo (min hi x)

/-- `self.age_weights`: ordered list of `(min_age, max_age, risk_factor)`
bands, in the dict's insertion order. -/
def age_weights : List (ℚ × ℚ × ℚ) :=
  [(0, 5, 0.1), (5, 15, 0.25), (15, 25, 0.5), (25, 35, 0.75), (35, 100, 1.0)]

/-- The band scan of `_calculate_age_factor`: first band with
`min_age <= age < max_age` wins; `max_age == 100` is the `very_old`
special case; falling off the list returns the default `100.0`. -/
def ageFactorScan (bands : List (ℚ × ℚ × ℚ)) (age_years : ℚ) : ℚ :=
  match bands with
  | [] => 100
  | (min_age, max_age, risk_factor) :: rest =>
    if min_age ≤ age_years ∧ age_years < max_age then
      if max_age = 100 then risk_factor * 100
      else
        risk_factor * 100 * (0.5 + 0.5 * ((age_years - min_age) / (max_age - min_age)))
    else ageFactorScan rest age_years

/-- `_calculate_age_factor`. -/
def calculate_age_factor (age_years : ℚ) : ℚ := ageFactorScan age_weights age_years

/-- `_get_trend_modifier`: dict lookup with default `1.0`. -/
def get_trend_modifier (trend : String) : ℚ :=
  if trend = "Excellent" then 0.7
  else if trend = "Improving" then 0.8
  else if trend = "Stable" then 1.0
  else if trend = "Deteriorating" then 1.3
  else if trend = "Critical" then 1.5
  else 1.0

/-- `_calculate_history_factor`.  `none` models `inspection_info` being
`None`/falsy; the source also returns 50.0 when `inspections == 0`. -/
def calculate_history_factor (inspection_info : Option InspectionInfo) : ℚ :=
  match inspection_info with
  | none => 50.0
  | some info =>
    if info.inspections = 0 then 50.0
    else
      let avg_deficiencies := info.avg_deficiencies
      let detention_rate := info.detention_rate / 100.0
      let clean_rate := info.clean_rate / 100.0
      let defect_risk := min 70 (avg_deficiencies * 8)
      let detention_risk := detention_rate * 25
      let clean_bonus := clean_rate * 15
      let trend_modifier := get_trend_modifier (info.performance_trend.getD "Stable")
      let history_score := (defect_risk + detention_risk - clean_bonus) * trend_modifier
      max 0 (min 100 history_score)

/-- `flag_risk_modifiers.get(flag_state, 1.0)`. -/
def flag_risk_modifier (flag_state : String) : ℚ :=
  if flag_state = "Panama" then 1.1
  else if flag_state = "Marshall Islands" then 1.1
  else if flag_state = "Korea" then 0.9
  else if flag_state = "Japan" then 0.8
  else if flag_state = "Norway" then 0.8
  else 1.0

/-- `type_risk_modifiers.get(vessel_type, 1.0)`. -/
def type_risk_modifier (vessel_type : String) : ℚ :=
  if vessel_type = "PC(T)C" then 1.0
  else if vessel_type = "Bulk" then 0.9
  else if vessel_type = "Container" then 0.85
  else if vessel_type = "Tanker" then 1.2
  else 1.0

/-- `class_risk_modifiers.get(..., 1.0)`. -/
def class_risk_modifier (society : String) : ℚ :=
  if society = "DNV" then 0.9
  else if society = "RINA" then 1.0
  else if society = "KR" then 0.9
  else if society = "ABS" then 0.9
  else if society = "LR" then 0.9
  else 1.0

/-- `_calculate_mou_factor`.  The `inspection_info` parameter of the source
is accepted but never read, so it is dropped here. -/
def calculate_mou_factor (vessel_info : VesselInfo) : ℚ :=
  let base_mou_risk : ℚ := 50.0
  let flag_modifier := flag_risk_modifier vessel_info.flag_state
  let type_modifier := type_risk_modifier vessel_info.vessel_type
  let class_modifier :=
    class_risk_modifier (vessel_info.classification_society.getD "Unknown")
  let mou_score := base_mou_risk * flag_modifier * type_modifier * class_modifier
  max 0 (min 100 mou_score)

/-- `_get_risk_category`. -/
def get_risk_category (risk_score : ℚ) : String :=
  if risk_score ≤ 25 then "LOW"
  else if risk_score ≤ 50 then "MEDIUM"
  else if risk_score ≤ 75 then "HIGH"
  else "CRITICAL"

/-- `factor_breakdown` sub-dict of a risk result (one-decimal roundings of
the three factors; the fixed weights 0.4/0.4/0.2 are constants). -/
structure FactorBreakdown where
  age_factor : ℚ
  history_factor : ℚ
  mou_factor : ℚ
deriving Repr, DecidableEq

/-- The result dict built by `calculateRiskScore` (minus the informational
timestamp-free `vessel_info` echo fields we keep whole). -/
structure RiskResult where
  vessel_name : String
  risk_score : ℚ
  risk_category : String
  factor_breakdown : FactorBreakdown
  vessel_info : VesselInfo
deriving Repr, DecidableEq

/-- The linear scan `for vessel in self.vessel_data['vessels']`. -/
def findVessel (d : CalculatorData) (vessel_name : String) : Option VesselInfo :=
  d.vessels.find? (fun v => v.vessel_name = vessel_name)

/-- The linear scan `for vessel_perf in self.inspection_data['vessel_performance']`. -/
def findInspection (d : CalculatorData) (vessel_name : String) : Option InspectionInfo :=
  d.vessel_performance.find? (fun v => v.vessel_name = vessel_name)

/-- Lines 88–91 of the source: weighted combination and clamp to 0–100. -/
def composeRisk (age_score history_score mou_score : ℚ) : ℚ :=
  max 0 (min 100 (age_score * 0.4 + history_score * 0.4 + mou_score * 0.2))

/-- `calculateRiskScore`.  A vessel name absent from the master data raises
`ValueError`, caught by the blanket handler and returned as an error dict:
here, `.error`.  When `inspection_info` is `None` the source sets
`history_score = 50.0` directly, which coincides with
`calculate_history_factor none`. -/
def calculateRiskScore (d : CalculatorData) (vessel_name : String) :
    Except String RiskResult :=
  match findVessel d vessel_name with
  | none => .error ("Vessel " ++ vessel_name ++ " not found in master data")
  | some vessel_info =>
    let inspection_info := findInspection d vessel_name
    let age_score := calculate_age_factor vessel_info.age_years
    let history_score := calculate_history_factor inspection_info
    let mou_score := calculate_mou_factor vessel_info
    let risk_score := composeRisk age_score history_score mou_score
    .ok
      { vessel_name := vessel_name
        risk_score := roundTo risk_score 1
        risk_category := get_risk_category risk_score
        factor_breakdown :=
          { age_factor := roundTo age_score 1
            history_factor := roundTo history_score 1
            mou_factor := roundTo mou_score 1 }
        vessel_info := vessel_info }

/-- `min(4, int(risk_score / 20))`: `int` truncates toward zero, which on
the non-negative scores reaching this code equals the floor. -/
def prob_index (risk_score : ℚ) : ℕ := min 4 (Int.toNat ⌊risk_score / 20⌋)

/-- `_calculate_severity_index`.  `max(0, base - 1)` is ℕ-truncated
subtraction. -/
def calculate_severity_index (vessel_info : VesselInfo) (risk_score : ℚ) : ℕ :=
  let base_severity := min 4 (Int.toNat ⌊risk_score / 20⌋)
  let dwt := vessel_info.dwt.getD 0
  if dwt > 100000 then min 4 (base_severity + 1)
  else if dwt < 20000 then base_severity - 1
  else base_severity

/-- `risk_matrix[i, j] += 1` on a matrix modelled as `ℕ → ℕ → ℕ`. -/
def bump (m : ℕ → ℕ → ℕ) (i j : ℕ) : ℕ → ℕ → ℕ :=
  fun a b => if a = i ∧ b = j then m a b + 1 else m a b

/-- Matrix cell placement of one scored vessel (lines 252–264): row
`4 - severity_index`, column `prob_index`, both computed from the rounded
`risk_score` field. -/
def placeVessel (m : ℕ → ℕ → ℕ) (r : RiskResult) : ℕ → ℕ → ℕ :=
  bump m (4 - calculate_severity_index r.vessel_info r.risk_score)
    (prob_index r.risk_score)

/-- The parts of `generateRiskMatrix`'s output the claims speak about:
the 5×5 count matrix and `total_vessels`. -/
structure RiskMatrix where
  matrix : ℕ → ℕ → ℕ
  total_vessels : ℕ

/-- `generateRiskMatrix` on an explicit vessel-name list: score each name,
keep the non-error results, place each into one cell of a zero matrix. -/
def generateRiskMatrix (d : CalculatorData) (vessels : List String) : RiskMatrix :=
  let vessel_risks := vessels.filterMap (fun n => (calculateRiskScore d n).toOption)
  { matrix := vessel_risks.foldl placeVessel (fun _ _ => 0)
    total_vessels := vessel_risks.length }

/-- The default vessel list when `generateRiskMatrix` is called with
`vessels=None`: every name in the inspection analytics. -/
def defaultVessels (d : CalculatorData) : List String :=
  d.vessel_performance.map (·.vessel_name)

/-- `risk_levels[i, j] = (5 - i) * (j + 1)` (line 270). -/
def risk_level (i j : ℕ) : ℕ := (5 - i) * (j + 1)

/-- One row of the `top_risk_vessels` list of the fleet report. -/
structure TopRiskVessel where
  vessel_name : String
  risk_score : ℚ
  risk_category : String
  age_years : ℚ
  vessel_type : String
deriving Repr, DecidableEq

/-- The four category counters of `risk_distribution`. -/
structure RiskDistribution where
  low : ℕ
  medium : ℕ
  high : ℕ
  critical : ℕ
deriving Repr, DecidableEq

/-- `fleet_overview` of the fleet report.  `average_risk_score = none`
models the NaN that `np.mean([])` yields on an empty fleet. -/
structure FleetOverview where
  total_vessels : ℕ
  average_risk_score : Option ℚ
  risk_distribution : RiskDistribution
  high_risk_vessels : ℕ
  critical_risk_vessels : ℕ
deriving Repr, DecidableEq

/-- `risk_matrix_summary` of the fleet report. -/
structure RiskMatrixSummary where
  total_vessels_in_matrix : ℕ
  high_risk_cells : ℕ
  vessels_in_high_risk : ℕ
deriving Repr, DecidableEq

/-- The report dict built by `generateFleetReport` (minus the title and
timestamp strings, which carry no data). -/
structure FleetReport where
  fleet_overview : FleetOverview
  top_risk_vessels : List TopRiskVessel
  risk_matrix_summary : RiskMatrixSummary
  vessel_details : List RiskResult
  risk_matrix : RiskMatrix

/-- `generateFleetReport` (lines 424–482): score every vessel appearing in
the inspection analytics, keep the non-error results as `fleet_risks`,
aggregate the fleet statistics, pick the top five by descending score
(Python's `sorted(..., reverse=True)` is a stable descending sort, modelled
by a stable `mergeSort`), and embed the default risk matrix. -/
def generateFleetReport (d : CalculatorData) : FleetReport :=
  let fleet_risks := d.vessel_performance.filterMap
    (fun vessel => (calculateRiskScore d vessel.vessel_name).toOption)
  let total_vessels := fleet_risks.length
  let avg_fleet_risk : Option ℚ :=
    if fleet_risks.length = 0 then none
    else some ((fleet_risks.map (·.risk_score)).sum / fleet_risks.length)
  let risk_distribution : RiskDistribution :=
    { low := fleet_risks.countP (fun v => v.risk_category = "LOW")
      medium := fleet_risks.countP (fun v => v.risk_category = "MEDIUM")
      high := fleet_risks.countP (fun v => v.risk_category = "HIGH")
      critical := fleet_risks.countP (fun v => v.risk_category = "CRITICAL") }
  let top_risk_vessels :=
    (fleet_risks.mergeSort (fun a b => decide (b.risk_score ≤ a.risk_score))).take 5
  let risk_matrix := generateRiskMatrix d (defaultVessels d)
  { fleet_overview :=
      { total_vessels := total_vessels
        average_risk_score := avg_fleet_risk.map (roundTo · 1)
        risk_distribution := risk_distribution
        high_risk_vessels :=
          (fleet_risks.filter (fun v => 50 < v.risk_score)).length
        critical_risk_vessels :=
          (fleet_risks.filter (fun v => 75 < v.risk_score)).length }
    top_risk_vessels := top_risk_vessels.map (fun v =>
      { vessel_name := v.vessel_name
        risk_score := v.risk_score
        risk_category := v.risk_category
        age_years := v.vessel_info.age_years
        vessel_type := v.vessel_info.vessel_type })
    risk_matrix_summary :=
      { total_vessels_in_matrix := risk_matrix.total_vessels
        high_risk_cells := ∑ i ∈ Finset.range 5, ∑ j ∈ Finset.range 5,
          if risk_level i j > 15 then 1 else 0
        vessels_in_high_risk := ∑ i ∈ Finset.range 5, ∑ j ∈ Finset.range 5,
          if risk_level i j > 15 then risk_matrix.matrix i j else 0 }
    vessel_details := fleet_risks
    risk_matrix := risk_matrix }

/-- The `parameters` dict of `simulateScenario`; `.get` defaults are
applied in the simulator body. -/
structure ScenarioParameters where
  vessels : Option (List String)
  defect_reduction : Option ℚ
  age_risk_reduction : Option ℚ
deriving Repr, DecidableEq

/-- One entry of `scenario_results['vessels_analyzed']`.  Note the source
stores `baseline_score` as the rounded `risk_score` field but
`modified_score` unrounded. -/
structure VesselAnalysis where
  vessel_name : String
  baseline_score : ℚ
  modified_score : ℚ
  risk_reduction : ℚ
  baseline_category : String
  modified_category : String
deriving Repr, DecidableEq

/-- `roi_estimate` sub-dict; `payback_period_years = none` models the
`float('inf')` sentinel. -/
structure RoiEstimate where
  estimated_cost : ℚ
  annual_savings : ℚ
  payback_period_years : Option ℚ
  roi_5_year_pct : ℚ
deriving Repr, DecidableEq

/-- `scenario_results['summary']`. -/
structure ScenarioSummary where
  total_vessels : ℕ
  vessels_improved : ℕ
  improvement_rate_pct : ℚ
  average_risk_reduction : ℚ
  total_risk_reduction : ℚ
  roi_estimate : RoiEstimate
deriving Repr, DecidableEq

/-- `scenario_results`.  `error` mirrors the `'error'` key set by the
`except` clause; every operation on the modelled path is total (each dict
access in the source is membership-guarded and each division is guarded),
so the embedding sets it to `none`. -/
structure ScenarioResults where
  scenario_name : String
  vessels_analyzed : List VesselAnalysis
  summary : ScenarioSummary
  error : Option String
deriving Repr, DecidableEq

/-- Membership-and-value view of the `modified_scores` dict: `vessel` is a
key exactly when it occurs in `vessels`, its baseline score is not an
error, and the scenario is one of the two recognised ones; the stored
value is the recombined clamped score and its category. -/
def modifiedScore (d : CalculatorData) (scenario_name : String)
    (defect_reduction age_risk_reduction : ℚ) (vessels : List String)
    (vessel : String) : Option (ℚ × String) :=
  if vessel ∈ vessels then
    match calculateRiskScore d vessel with
    | .error _ => none
    | .ok baseline =>
      if scenario_name = "training_impact" then
        let reduction_pct := defect_reduction / 100.0
        let modified_h := baseline.factor_breakdown.history_factor * (1 - reduction_pct)
        let new_risk_score := composeRisk baseline.factor_breakdown.age_factor
          modified_h baseline.factor_breakdown.mou_factor
        some (new_risk_score, get_risk_category new_risk_score)
      else if scenario_name = "maintenance_improvement" then
        let age_improvement := age_risk_reduction / 100.0
        let modified_a := baseline.factor_breakdown.age_factor * (1 - age_improvement)
        let new_risk_score := composeRisk modified_a
          baseline.factor_breakdown.history_factor baseline.factor_breakdown.mou_factor
        some (new_risk_score, get_risk_category new_risk_score)
      else none
  else none

/-- The impact-analysis loop (lines 364–387): one pass over `vessels`
accumulating `vessels_analyzed`, `total_reduction` and `vessels_improved`.
A vessel contributes iff it is a key of both `baseline_scores` (always,
for members of `vessels`) and `modified_scores`, which also guarantees its
baseline is not an error. -/
def scenarioStep (d : CalculatorData) (modified : String → Option (ℚ × String))
    (acc : List VesselAnalysis × ℚ × ℕ) (vessel : String) :
    List VesselAnalysis × ℚ × ℕ :=
  match calculateRiskScore d vessel, modified vessel with
  | .ok baseline, some (modified_score, modified_category) =>
    let reduction := baseline.risk_score - modified_score
    (acc.1 ++ [{ vessel_name := vessel
                 baseline_score := baseline.risk_score
                 modified_score := modified_score
                 risk_reduction := reduction
                 baseline_category := baseline.risk_category
                 modified_category := modified_category }],
     acc.2.1 + reduction,
     if reduction > 0 then acc.2.2 + 1 else acc.2.2)
  | _, _ => acc

def scenarioFold (d : CalculatorData) (modified : String → Option (ℚ × String))
    (vessels : List String) : List VesselAnalysis × ℚ × ℕ :=
  vessels.foldl (scenarioStep d modified) ([], 0, 0)

/-- `cost_estimates.get(scenario_name, 100000)`. -/
def cost_estimates (scenario_name : String) : ℚ :=
  if scenario_name = "training_impact" then 50000
  else if scenario_name = "maintenance_improvement" then 200000
  else if scenario_name = "flag_change" then 25000
  else 100000

/-- `simulateScenario`. -/
def simulateScenario (d : CalculatorData) (scenario_name : String)
    (parameters : ScenarioParameters) : ScenarioResults :=
  let vessels := parameters.vessels.getD (defaultVessels d)
  let defect_reduction := parameters.defect_reduction.getD 20
  let age_risk_reduction := parameters.age_risk_reduction.getD 15
  let modified :=
    modifiedScore d scenario_name defect_reduction age_risk_reduction vessels
  let analysis := scenarioFold d modified vessels
  let vessels_analyzed := analysis.1
  let total_reduction := analysis.2.1
  let vessels_improved := analysis.2.2
  let avg_reduction := if vessels ≠ [] then total_reduction / vessels.length else 0
  let improvement_rate :=
    if vessels ≠ [] then (vessels_improved : ℚ) / vessels.length * 100 else 0
  let annual_savings := avg_reduction * 5000
  let cost := cost_estimates scenario_name
  let payback_period : Option ℚ :=
    if annual_savings > 0 then some (cost / annual_savings) else none
  let roi_5_year :=
    if cost > 0 then ((annual_savings * 5) - cost) / cost * 100 else 0
  { scenario_name := scenario_name
    vessels_analyzed := vessels_analyzed
    summary :=
      { total_vessels := vessels.length
        vessels_improved := vessels_improved
        improvement_rate_pct := roundTo improvement_rate 1
        average_risk_reduction := roundTo avg_reduction 2
        total_risk_reduction := roundTo total_reduction 2
        roi_estimate :=
          { estimated_cost := cost
            annual_savings := roundTo annual_savings 0
            payback_period_years := payback_period.map (roundTo · 1)
            roi_5_year_pct := roundTo roi_5_year 1 } }
    error := none }

/-- Sum of the 25 cells of a 5×5 matrix. -/
def gridSum (m : ℕ → ℕ → ℕ) : ℕ :=
  ∑ i ∈ Finset.range 5, ∑ j ∈ Finset.range 5, m i j

/-! ### Concrete fixture data used to instantiate the scenario claims -/

/-- A 3.33-year-old Korean-flag PC(T)C carrier with no inspection record:
its age factor 8.33 is not a one-decimal value, which separates the
rounded factor breakdown from the raw factors. -/
def vesselB : VesselInfo :=
  { vessel_name := "V", age_years := 333/100, vessel_type := "PC(T)C",
    flag_state := "Korea", classification_society := none,
    built_year := 2022, dwt := some 50000 }

def dataB : CalculatorData := { vessels := [vesselB], vessel_performance := [] }

def paramsB : ScenarioParameters :=
  { vessels := some ["V"], defect_reduction := some 0, age_risk_reduction := none }

/-- Risk result of `vesselB`: factors (8.33, 50, 45), composite
32.332 rounded to 32.3. -/
def resB : RiskResult :=
  { vessel_name := "V", risk_score := 323/10, risk_category := "MEDIUM",
    factor_breakdown :=
      { age_factor := 83/10, history_factor := 50, mou_factor := 45 },
    vessel_info := vesselB }

/-- Scenario row for `vesselB` under "training_impact" with zero defect
reduction: the recombination of the rounded factors gives 32.32, not the
baseline 32.3. -/
def entryB : VesselAnalysis :=
  { vessel_name := "V", baseline_score := 323/10, modified_score := 808/25,
    risk_reduction := -(1/50), baseline_category := "MEDIUM",
    modified_category := "MEDIUM" }

/-- A 40-year-old vessel with unknown flag/type/class: factors
(100, 50, 50), composite exactly 70. -/
def vesselC : VesselInfo :=
  { vessel_name := "V", age_years := 40, vessel_type := "X",
    flag_state := "X", classification_society := none,
    built_year := 1985, dwt := some 50000 }

def dataC : CalculatorData := { vessels := [vesselC], vessel_performance := [] }

/-- Requests two vessels, of which only "V" exists in the master data. -/
def paramsC : ScenarioParameters :=
  { vessels := some ["V", "G"], defect_reduction := some 50,
    age_risk_reduction := none }

def resC : RiskResult :=
  { vessel_name := "V", risk_score := 70, risk_category := "HIGH",
    factor_breakdown :=
      { age_factor := 100, history_factor := 50, mou_factor := 50 },
    vessel_info := vesselC }

def entryC : VesselAnalysis :=
  { vessel_name := "V", baseline_score := 70, modified_score := 60,
    risk_reduction := 10, baseline_category := "HIGH",
    modified_category := "HIGH" }

/-! ### Helper lemmas -/

theorem prob_index_le (risk_score : ℚ) : prob_index risk_score ≤ 4 :=
  min_le_left 4 _

theorem calculate_severity_index_le (vi : VesselInfo) (risk_score : ℚ) :
    calculate_severity_index vi risk_score ≤ 4 := by
  simp only [calculate_severity_index]
  have hb : min 4 (Int.toNat ⌊risk_score / 20⌋) ≤ 4 := min_le_left 4 _
  split_ifs <;> omega

theorem gridSum_bump (m : ℕ → ℕ → ℕ) (i j : ℕ) (hi : i < 5) (hj : j < 5) :
    gridSum (bump m i j) = gridSum m + 1 := by
  interval_cases i <;> interval_cases j <;>
    simp [gridSum, bump, Finset.sum_range_succ] <;> ring

theorem gridSum_foldl_place (rs : List RiskResult) (m : ℕ → ℕ → ℕ) :
    gridSum (rs.foldl placeVessel m) = gridSum m + rs.length := by
  induction rs generalizing m with
  | nil => simp
  | cons r rest ih =>
    rw [List.foldl_cons, ih]
    unfold placeVessel
    rw [gridSum_bump _ _ _
      (by have := calculate_severity_index_le r.vessel_info r.risk_score; omega)
      (by have := prob_index_le r.risk_score; omega)]
    simp [List.length_cons]
    omega

theorem filterMap_length_countP {α β : Type} (f : α → Option β) (l : List α) :
    (l.filterMap f).length = l.countP (fun a => (f a).isSome) := by
  induction l with
  | nil => rfl
  | cons a rest ih =>
    rw [List.filterMap_cons, List.countP_cons]
    cases hf : f a <;> simp [hf, ih]

theorem scenarioStep_none (d : CalculatorData)
    (modified : String → Option (ℚ × String)) (acc : List VesselAnalysis × ℚ × ℕ)
    (vessel : String) (hv : modified vessel = none) :
    scenarioStep d modified acc vessel = acc := by
  unfold scenarioStep
  rw [hv]
  cases calculateRiskScore d vessel <;> rfl

theorem foldl_scenarioStep_const (d : CalculatorData)
    (modified : String → Option (ℚ × String)) (hmod : ∀ v, modified v = none) :
    ∀ (l : List String) (acc), l.foldl (scenarioStep d modified) acc = acc := by
  intro l
  induction l with
  | nil => intro acc; rfl
  | cons v rest ih =>
    intro acc
    rw [List.foldl_cons, scenarioStep_none d modified acc v (hmod v), ih]

theorem findInspection_skip (V : List VesselInfo) (pre post : List InspectionInfo)
    (g : InspectionInfo) (n : String) (hne : ¬ g.vessel_name = n) :
    findInspection ⟨V, pre ++ g :: post⟩ n = findInspection ⟨V, pre ++ post⟩ n := by
  show (pre ++ g :: post).find? (fun v => v.vessel_name = n) =
    (pre ++ post).find? (fun v => v.vessel_name = n)
  induction pre with
  | nil =>
    simp only [List.nil_append, List.find?]
    rw [show decide (g.vessel_name = n) = false from decide_eq_false hne]
  | cons a rest ih =>
    simp only [List.cons_append, List.find?]
    cases decide (a.vessel_name = n) <;> simp [ih]

theorem calculateRiskScore_congr (d1 d2 : CalculatorData) (n : String)
    (hv : findVessel d1 n = findVessel d2 n)
    (hi : findInspection d1 n = findInspection d2 n) :
    calculateRiskScore d1 n = calculateRiskScore d2 n := by
  unfold calculateRiskScore
  rw [hv, hi]

/-- Removing an inspection row whose vessel name is absent from the master
data changes no vessel's risk score: the scorer reads the inspection list
only through `findInspection` of a name that is in the master data. -/
theorem calculateRiskScore_perf_skip (V : List VesselInfo)
    (pre post : List InspectionInfo) (g : InspectionInfo)
    (hg : findVessel ⟨V, pre ++ g :: post⟩ g.vessel_name = none) (n : String) :
    calculateRiskScore ⟨V, pre ++ g :: post⟩ n =
      calculateRiskScore ⟨V, pre ++ post⟩ n := by
  by_cases hne : g.vessel_name = n
  · subst hne
    unfold calculateRiskScore
    rw [show findVessel ⟨V, pre ++ g :: post⟩ g.vessel_name = none from hg,
      show findVessel ⟨V, pre ++ post⟩ g.vessel_name = none from hg]
  · exact calculateRiskScore_congr _ _ n rfl (findInspection_skip V pre post g n hne)

theorem generateRiskMatrix_skip (d : CalculatorData) (vessel_name : String)
    (h : (calculateRiskScore d vessel_name).toOption = none)
    (pre post : List String) :
    generateRiskMatrix d (pre ++ vessel_name :: post) =
      generateRiskMatrix d (pre ++ post) := by
  unfold generateRiskMatrix
  rw [List.filterMap_append, List.filterMap_append, List.filterMap_cons, h]

theorem generateRiskMatrix_congr (d1 d2 : CalculatorData)
    (hsc : ∀ n, calculateRiskScore d1 n = calculateRiskScore d2 n)
    (l : List String) : generateRiskMatrix d1 l = generateRiskMatrix d2 l := by
  unfold generateRiskMatrix
  rw [show (fun n => (calculateRiskScore d1 n).toOption) =
    (fun n => (calculateRiskScore d2 n).toOption) from funext fun n => by rw [hsc]]

/-- Removing an inspection row whose vessel name is absent from the master
data leaves the whole fleet report unchanged: the report's scoring loop
drops that vessel's error result, and every aggregate is a function of the
remaining scores. -/
theorem generateFleetReport_skip (V : List VesselInfo)
    (pre post : List InspectionInfo) (g : InspectionInfo)
    (hg : findVessel ⟨V, pre ++ g :: post⟩ g.vessel_name = none) :
    generateFleetReport ⟨V, pre ++ g :: post⟩ =
      generateFleetReport ⟨V, pre ++ post⟩ := by
  have hsc := calculateRiskScore_perf_skip V pre post g hg
  have herr : calculateRiskScore ⟨V, pre ++ post⟩ g.vessel_name =
      .error ("Vessel " ++ g.vessel_name ++ " not found in master data") := by
    unfold calculateRiskScore
    rw [show findVessel ⟨V, pre ++ post⟩ g.vessel_name = none from hg]
  have h1 : (pre ++ g :: post).filterMap
        (fun vessel => (calculateRiskScore ⟨V, pre ++ g :: post⟩
          vessel.vessel_name).toOption) =
      (pre ++ post).filterMap
        (fun vessel => (calculateRiskScore ⟨V, pre ++ post⟩
          vessel.vessel_name).toOption) := by
    rw [show (fun vessel : InspectionInfo =>
        (calculateRiskScore ⟨V, pre ++ g :: post⟩ vessel.vessel_name).toOption) =
      (fun vessel => (calculateRiskScore ⟨V, pre ++ post⟩
        vessel.vessel_name).toOption) from funext fun vessel => by rw [hsc]]
    rw [List.filterMap_append, List.filterMap_append, List.filterMap_cons, herr]
    rfl
  have h2 : generateRiskMatrix ⟨V, pre ++ g :: post⟩
        (defaultVessels ⟨V, pre ++ g :: post⟩) =
      generateRiskMatrix ⟨V, pre ++ post⟩ (defaultVessels ⟨V, pre ++ post⟩) := by
    rw [generateRiskMatrix_congr _ _ hsc]
    rw [show defaultVessels ⟨V, pre ++ g :: post⟩ =
      pre.map (·.vessel_name) ++ g.vessel_name :: post.map (·.vessel_name) from by
        simp [defaultVessels]]
    rw [generateRiskMatrix_skip _ _ (by rw [herr]; rfl)]
    rw [show defaultVessels ⟨V, pre ++ post⟩ =
      pre.map (·.vessel_name) ++ post.map (·.vessel_name) from by
        simp [defaultVessels]]
  unfold generateFleetReport
  rw [h1, h2]

/-- Closed form of the age-band scan. -/
theorem calculate_age_factor_eq (age : ℚ) :
    calculate_age_factor age =
      if 0 ≤ age ∧ age < 5 then 0.1 * 100 * (0.5 + 0.5 * ((age - 0) / (5 - 0)))
      else if 5 ≤ age ∧ age < 15 then 0.25 * 100 * (0.5 + 0.5 * ((age - 5) / (15 - 5)))
      else if 15 ≤ age ∧ age < 25 then 0.5 * 100 * (0.5 + 0.5 * ((age - 15) / (25 - 15)))
      else if 25 ≤ age ∧ age < 35 then 0.75 * 100 * (0.5 + 0.5 * ((age - 25) / (35 - 25)))
      else 100 := by
  show ageFactorScan age_weights age = _
  rw [age_weights]
  rw [ageFactorScan, ageFactorScan, ageFactorScan, ageFactorScan, ageFactorScan,
    ageFactorScan]
  norm_num

theorem flag_risk_modifier_bounds (s : String) :
    0.8 ≤ flag_risk_modifier s ∧ flag_risk_modifier s ≤ 1.1 := by
  unfold flag_risk_modifier
  split_ifs <;> norm_num

theorem type_risk_modifier_bounds (s : String) :
    0.85 ≤ type_risk_modifier s ∧ type_risk_modifier s ≤ 1.2 := by
  unfold type_risk_modifier
  split_ifs <;> norm_num

theorem class_risk_modifier_bounds (s : String) :
    0.9 ≤ class_risk_modifier s ∧ class_risk_modifier s ≤ 1 := by
  unfold class_risk_modifier
  split_ifs <;> norm_num

/-- Bounds of the triple modifier product appearing in the MOU factor. -/
theorem mou_product_bounds (f t c : ℚ) (hf0 : 0.8 ≤ f) (hf1 : f ≤ 1.1)
    (ht0 : 0.85 ≤ t) (ht1 : t ≤ 1.2) (hc0 : 0.9 ≤ c) (hc1 : c ≤ 1) :
    30.6 ≤ 50 * f * t * c ∧ 50 * f * t * c ≤ 66 := by
  have hft0 : (0.68 : ℚ) ≤ f * t := by
    nlinarith [mul_nonneg (by linarith : (0 : ℚ) ≤ f - 0.8)
      (by linarith : (0 : ℚ) ≤ t - 0.85)]
  have hft1 : f * t ≤ 1.32 := by
    nlinarith [mul_nonneg (by linarith : (0 : ℚ) ≤ 1.1 - f)
      (by linarith : (0 : ℚ) ≤ 1.2 - t)]
  constructor
  · nlinarith [mul_nonneg (by linarith : (0 : ℚ) ≤ f * t - 0.68)
      (by linarith : (0 : ℚ) ≤ c - 0.9)]
  · nlinarith [mul_nonneg (by linarith : (0 : ℚ) ≤ 1.32 - f * t)
      (by linarith : (0 : ℚ) ≤ c - 0.9)]

/-- Closed form of the MOU factor. -/
theorem calculate_mou_factor_eq (vi : VesselInfo) :
    calculate_mou_factor vi =
      max 0 (min 100 (50 * flag_risk_modifier vi.flag_state *
        type_risk_modifier vi.vessel_type *
        class_risk_modifier (vi.classification_society.getD "Unknown"))) := by
  unfold calculate_mou_factor
  norm_num

/-! ### Claims -/

/-- C2: for every risk score in [0,100] the category is LOW iff s ≤ 25,
MEDIUM iff 25 < s ≤ 50, HIGH iff 50 < s ≤ 75, CRITICAL iff 75 < s; the
boundary scores 25, 50 and 75 map to LOW, MEDIUM and HIGH. -/
theorem risk_category_thresholds (s : ℚ) (h0 : 0 ≤ s) (h1 : s ≤ 100) :
    (get_risk_category s = "LOW" ↔ s ≤ 25) ∧
    (get_risk_category s = "MEDIUM" ↔ 25 < s ∧ s ≤ 50) ∧
    (get_risk_category s = "HIGH" ↔ 50 < s ∧ s ≤ 75) ∧
    (get_risk_category s = "CRITICAL" ↔ 75 < s) ∧
    get_risk_category 25 = "LOW" ∧
    get_risk_category 50 = "MEDIUM" ∧
    get_risk_category 75 = "HIGH" := by
  have e25 : get_risk_category 25 = "LOW" := by norm_num [get_risk_category]
  have e50 : get_risk_category 50 = "MEDIUM" := by norm_num [get_risk_category]
  have e75 : get_risk_category 75 = "HIGH" := by norm_num [get_risk_category]
  rcases le_or_lt s 25 with hA | hA
  · have hc : get_risk_category s = "LOW" := by
      unfold get_risk_category; rw [if_pos hA]
    refine ⟨?_, ?_, ?_, ?_, e25, e50, e75⟩ <;> rw [hc] <;> simp <;>
      first | exact hA | linarith | (intro h; linarith)
  · rcases le_or_lt s 50 with hB | hB
    · have hc : get_risk_category s = "MEDIUM" := by
        unfold get_risk_category; rw [if_neg (by linarith), if_pos hB]
      refine ⟨?_, ?_, ?_, ?_, e25, e50, e75⟩ <;> rw [hc] <;> simp <;>
        first | exact ⟨hA, hB⟩ | linarith | (intro h; linarith)
    · rcases le_or_lt s 75 with hC | hC
      · have hc : get_risk_category s = "HIGH" := by
          unfold get_risk_category
          rw [if_neg (by linarith), if_neg (by linarith), if_pos hC]
        refine ⟨?_, ?_, ?_, ?_, e25, e50, e75⟩ <;> rw [hc] <;> simp <;>
          first | exact ⟨hB, hC⟩ | linarith | (intro h; linarith)
      · have hc : get_risk_category s = "CRITICAL" := by
          unfold get_risk_category
          rw [if_neg (by linarith), if_neg (by linarith), if_neg (by linarith)]
        refine ⟨?_, ?_, ?_, ?_, e25, e50, e75⟩ <;> rw [hc] <;> simp <;>
          first | exact hC | linarith | (intro h; linarith)

/-- C2 witness at a concrete boundary-adjacent score. -/
theorem risk_category_thresholds_witness :
    (get_risk_category 30 = "LOW" ↔ (30 : ℚ) ≤ 25) ∧
    (get_risk_category 30 = "MEDIUM" ↔ (25 : ℚ) < 30 ∧ (30 : ℚ) ≤ 50) ∧
    (get_risk_category 30 = "HIGH" ↔ (50 : ℚ) < 30 ∧ (30 : ℚ) ≤ 75) ∧
    (get_risk_category 30 = "CRITICAL" ↔ (75 : ℚ) < 30) ∧
    get_risk_category 25 = "LOW" ∧
    get_risk_category 50 = "MEDIUM" ∧
    get_risk_category 75 = "HIGH" :=
  risk_category_thresholds 30 (by norm_num) (by norm_num)

/-- C3: the age factor is in [5,10] on [0,5); equals 12.5 at age 5; follows
the band interpolation formula `base*100*(0.5 + 0.5*(age-min)/(max-min))`
on each bounded band; and is exactly 100 for every age ≥ 35 and for every
age outside all bands (negative ages). -/
theorem age_factor_bands (age : ℚ) :
    (0 ≤ age → age < 5 →
      5 ≤ calculate_age_factor age ∧ calculate_age_factor age ≤ 10) ∧
    calculate_age_factor 5 = 12.5 ∧
    (0 ≤ age → age < 5 →
      calculate_age_factor age = 0.1 * 100 * (0.5 + 0.5 * ((age - 0) / (5 - 0)))) ∧
    (5 ≤ age → age < 15 →
      calculate_age_factor age = 0.25 * 100 * (0.5 + 0.5 * ((age - 5) / (15 - 5)))) ∧
    (15 ≤ age → age < 25 →
      calculate_age_factor age = 0.5 * 100 * (0.5 + 0.5 * ((age - 15) / (25 - 15)))) ∧
    (25 ≤ age → age < 35 →
      calculate_age_factor age = 0.75 * 100 * (0.5 + 0.5 * ((age - 25) / (35 - 25)))) ∧
    (35 ≤ age → calculate_age_factor age = 100) ∧
    (age < 0 → calculate_age_factor age = 100) := by
  rw [calculate_age_factor_eq]
  have h5 : calculate_age_factor 5 = 12.5 := by rw [calculate_age_factor_eq]; norm_num
  split_ifs with hA hB hC hD <;>
    refine ⟨?_, h5, ?_, ?_, ?_, ?_, ?_, ?_⟩ <;> intros <;>
    first
      | rfl
      | (exfalso; first
          | exact hA ⟨by linarith, by linarith⟩
          | exact hB ⟨by linarith, by linarith⟩
          | exact hC ⟨by linarith, by linarith⟩
          | exact hD ⟨by linarith, by linarith⟩
          | linarith [hA.1, hA.2]
          | linarith [hB.1, hB.2]
          | linarith [hC.1, hC.2]
          | linarith [hD.1, hD.2])
      | (constructor <;> nlinarith)

/-- C3 witness at age 30 (old band, position 0.5). -/
theorem age_factor_bands_witness :
    calculate_age_factor 30 = 0.75 * 100 * (0.5 + 0.5 * ((30 - 25) / (35 - 25))) :=
  (age_factor_bands 30).2.2.2.2.2.1 (by norm_num) (by norm_num)

/-- C10: for every vessel record, known or unknown flag state, vessel type
and classification society alike, the MOU factor lies in [30.6, 66], it
equals the unclamped product `50 * flag * type * class` (so the final
clamp to [0,100] never alters it), and in particular it never reaches 0 or
100. -/
theorem mou_factor_range (vessel_info : VesselInfo) :
    30.6 ≤ calculate_mou_factor vessel_info ∧
    calculate_mou_factor vessel_info ≤ 66 ∧
    calculate_mou_factor vessel_info =
      50 * flag_risk_modifier vessel_info.flag_state *
        type_risk_modifier vessel_info.vessel_type *
        class_risk_modifier (vessel_info.classification_society.getD "Unknown") ∧
    0 < calculate_mou_factor vessel_info ∧ calculate_mou_factor vessel_info < 100 := by
  obtain ⟨hf0, hf1⟩ := flag_risk_modifier_bounds vessel_info.flag_state
  obtain ⟨ht0, ht1⟩ := type_risk_modifier_bounds vessel_info.vessel_type
  obtain ⟨hc0, hc1⟩ :=
    class_risk_modifier_bounds (vessel_info.classification_society.getD "Unknown")
  obtain ⟨hlow, hhigh⟩ := mou_product_bounds _ _ _ hf0 hf1 ht0 ht1 hc0 hc1
  have hraw : calculate_mou_factor vessel_info =
      50 * flag_risk_modifier vessel_info.flag_state *
        type_risk_modifier vessel_info.vessel_type *
        class_risk_modifier (vessel_info.classification_society.getD "Unknown") := by
    rw [calculate_mou_factor_eq, min_eq_right (by linarith),
      max_eq_right (by linarith)]
  refine ⟨?_, ?_, hraw, ?_, ?_⟩ <;> rw [hraw] <;> linarith

/-- C1: for factor values a, h, m each in [0,100], the composed score of
the risk scorer equals `clamp(0.4a + 0.4h + 0.2m, 0, 100)`; and whenever
`calculateRiskScore` succeeds, the `risk_score` field is exactly that
composition of the three computed factors rounded to one decimal. -/
theorem risk_score_composition (a h m : ℚ) (ha0 : 0 ≤ a) (ha1 : a ≤ 100)
    (hh0 : 0 ≤ h) (hh1 : h ≤ 100) (hm0 : 0 ≤ m) (hm1 : m ≤ 100) :
    composeRisk a h m = clamp 0 100 (0.4 * a + 0.4 * h + 0.2 * m) ∧
    ∀ d vessel_name b, calculateRiskScore d vessel_name = .ok b →
      ∃ vi, findVessel d vessel_name = some vi ∧
        b.risk_score =
          roundTo (composeRisk (calculate_age_factor vi.age_years)
            (calculate_history_factor (findInspection d vessel_name))
            (calculate_mou_factor vi)) 1 := by
  constructor
  · unfold composeRisk clamp
    ring_nf
  · intro d vessel_name b hb
    unfold calculateRiskScore at hb
    cases hv : findVessel d vessel_name with
    | none => rw [hv] at hb; exact absurd hb (by simp)
    | some vi =>
      rw [hv] at hb
      refine ⟨vi, rfl, ?_⟩
      cases hb
      rfl

/-- C1 witness: concrete factor triple (50, 50, 50). -/
theorem risk_score_composition_witness :
    composeRisk 50 50 50 = clamp 0 100 (0.4 * 50 + 0.4 * 50 + 0.2 * 50) ∧
    ∀ d vessel_name b, calculateRiskScore d vessel_name = .ok b →
      ∃ vi, findVessel d vessel_name = some vi ∧
        b.risk_score =
          roundTo (composeRisk (calculate_age_factor vi.age_years)
            (calculate_history_factor (findInspection d vessel_name))
            (calculate_mou_factor vi)) 1 :=
  risk_score_composition 50 50 50 (by norm_num) (by norm_num) (by norm_num)
    (by norm_num) (by norm_num) (by norm_num)

/-- C4: the history factor is 50 with no inspection summary or a zero
inspection count, and otherwise equals
`clamp((min(70, avg_def*8) + (detention_rate/100)*25 - (clean_rate/100)*15)
* trend_modifier, 0, 100)` with trend modifiers Excellent 0.7,
Improving 0.8, Stable 1.0, Deteriorating 1.3, Critical 1.5 and 1.0 for
any other trend. -/
theorem history_factor_formula (i : InspectionInfo) (t : String)
    (hi : i.inspections ≠ 0)
    (ht : t ≠ "Excellent" ∧ t ≠ "Improving" ∧ t ≠ "Stable" ∧
      t ≠ "Deteriorating" ∧ t ≠ "Critical") :
    calculate_history_factor none = 50 ∧
    (∀ j : InspectionInfo, j.inspections = 0 →
      calculate_history_factor (some j) = 50) ∧
    calculate_history_factor (some i) =
      clamp 0 100
        ((min 70 (i.avg_deficiencies * 8) + (i.detention_rate / 100) * 25 -
            (i.clean_rate / 100) * 15) *
          get_trend_modifier (i.performance_trend.getD "Stable")) ∧
    get_trend_modifier "Excellent" = 0.7 ∧
    get_trend_modifier "Improving" = 0.8 ∧
    get_trend_modifier "Stable" = 1 ∧
    get_trend_modifier "Deteriorating" = 1.3 ∧
    get_trend_modifier "Critical" = 1.5 ∧
    get_trend_modifier t = 1 := by
  obtain ⟨h1, h2, h3, h4, h5⟩ := ht
  refine ⟨by norm_num [calculate_history_factor], ?_, ?_,
    by simp [get_trend_modifier], by simp [get_trend_modifier],
    by simp [get_trend_modifier]; norm_num, by simp [get_trend_modifier],
    by simp [get_trend_modifier], ?_⟩
  · intro j hj
    simp only [calculate_history_factor, if_pos hj]
    norm_num
  · simp only [calculate_history_factor, if_neg hi, clamp]
    norm_num
  · simp only [get_trend_modifier, if_neg h1, if_neg h2, if_neg h3, if_neg h4,
      if_neg h5]
    norm_num

/-- C4 witness: a two-inspection summary with average 5 deficiencies,
10% detention rate, 20% clean rate, Stable trend, and the unknown trend
string "Unknown". -/
theorem history_factor_formula_witness :
    calculate_history_factor none = 50 ∧
    (∀ j : InspectionInfo, j.inspections = 0 →
      calculate_history_factor (some j) = 50) ∧
    calculate_history_factor
        (some { vessel_name := "W", inspections := 2, avg_deficiencies := 5,
                detention_rate := 10, clean_rate := 20,
                performance_trend := some "Stable" }) =
      clamp 0 100 ((min 70 ((5 : ℚ) * 8) + ((10 : ℚ) / 100) * 25 -
          ((20 : ℚ) / 100) * 15) * get_trend_modifier "Stable") ∧
    get_trend_modifier "Excellent" = 0.7 ∧
    get_trend_modifier "Improving" = 0.8 ∧
    get_trend_modifier "Stable" = 1 ∧
    get_trend_modifier "Deteriorating" = 1.3 ∧
    get_trend_modifier "Critical" = 1.5 ∧
    get_trend_modifier "Unknown" = 1 :=
  history_factor_formula
    { vessel_name := "W", inspections := 2, avg_deficiencies := 5,
      detention_rate := 10, clean_rate := 20, performance_trend := some "Stable" }
    "Unknown" (by norm_num)
    ⟨by decide, by decide, by decide, by decide, by decide⟩

/-- C5: for every input vessel list the sum of all 25 cell counts of the
generated risk matrix equals `total_vessels`, which is the number of
vessels whose scoring succeeded (errored vessels contribute to no cell),
and the severity and probability indices are always in [0,4]. -/
theorem risk_matrix_cell_sum (d : CalculatorData) (vessels : List String) :
    gridSum (generateRiskMatrix d vessels).matrix =
      (generateRiskMatrix d vessels).total_vessels ∧
    (generateRiskMatrix d vessels).total_vessels =
      vessels.countP (fun n => (calculateRiskScore d n).toOption.isSome) ∧
    ∀ r : RiskResult,
      calculate_severity_index r.vessel_info r.risk_score ≤ 4 ∧
        prob_index r.risk_score ≤ 4 := by
  refine ⟨?_, ?_, fun r => ⟨calculate_severity_index_le _ _, prob_index_le _⟩⟩
  · show gridSum
      ((vessels.filterMap (fun n => (calculateRiskScore d n).toOption)).foldl
        placeVessel (fun _ _ => 0)) = _
    rw [gridSum_foldl_place]
    simp [gridSum, generateRiskMatrix]
  · exact filterMap_length_countP _ _

/-- C7: scoring a vessel name absent from the master data returns a
per-vessel error value rather than propagating an exception, and in both
batch operations the unresolvable vessel is skipped while every remaining
vessel is still processed and aggregated: matrix generation over a batch
containing such a name yields exactly the matrix of the batch with that
name removed, and the fleet report over an inspection list containing such
a vessel equals the fleet report with that row removed. -/
theorem vessel_not_found_isolated (d : CalculatorData) (vessel_name : String)
    (h : findVessel d vessel_name = none) :
    calculateRiskScore d vessel_name =
      .error ("Vessel " ++ vessel_name ++ " not found in master data") ∧
    (∀ pre post : List String,
      generateRiskMatrix d (pre ++ vessel_name :: post) =
        generateRiskMatrix d (pre ++ post)) ∧
    (∀ (pre post : List InspectionInfo) (g : InspectionInfo),
      g.vessel_name = vessel_name →
      generateFleetReport ⟨d.vessels, pre ++ g :: post⟩ =
        generateFleetReport ⟨d.vessels, pre ++ post⟩) := by
  have herr : calculateRiskScore d vessel_name =
      .error ("Vessel " ++ vessel_name ++ " not found in master data") := by
    unfold calculateRiskScore
    rw [h]
  refine ⟨herr,
    fun pre post => generateRiskMatrix_skip d vessel_name (by rw [herr]; rfl) pre post,
    fun pre post g hgname => ?_⟩
  apply generateFleetReport_skip
  rw [hgname]
  exact h

/-- C7 witness: the unknown name "GHOST" on concrete datasets. -/
theorem vessel_not_found_isolated_witness :
    calculateRiskScore { vessels := [], vessel_performance := [] } "GHOST" =
      .error ("Vessel " ++ "GHOST" ++ " not found in master data") ∧
    (∀ pre post : List String,
      generateRiskMatrix { vessels := [], vessel_performance := [] }
          (pre ++ "GHOST" :: post) =
        generateRiskMatrix { vessels := [], vessel_performance := [] }
          (pre ++ post)) ∧
    (∀ (pre post : List InspectionInfo) (g : InspectionInfo),
      g.vessel_name = "GHOST" →
      generateFleetReport ⟨[], pre ++ g :: post⟩ =
        generateFleetReport ⟨[], pre ++ post⟩) :=
  vessel_not_found_isolated { vessels := [], vessel_performance := [] } "GHOST" rfl

/-- C8: for every scenario identifier other than "training_impact" and
"maintenance_improvement", the simulator's `vessels_analyzed` list is
empty, the modified-score map holds no vessel, and no error is recorded. -/
theorem unknown_scenario_empty (d : CalculatorData)
    (parameters : ScenarioParameters) (scenario_name : String)
    (h1 : scenario_name ≠ "training_impact")
    (h2 : scenario_name ≠ "maintenance_improvement") :
    (simulateScenario d scenario_name parameters).vessels_analyzed = [] ∧
    (∀ vessel, modifiedScore d scenario_name
      (parameters.defect_reduction.getD 20)
      (parameters.age_risk_reduction.getD 15)
      (parameters.vessels.getD (defaultVessels d)) vessel = none) ∧
    (simulateScenario d scenario_name parameters).error = none := by
  have hmod : ∀ vessel, modifiedScore d scenario_name
      (parameters.defect_reduction.getD 20)
      (parameters.age_risk_reduction.getD 15)
      (parameters.vessels.getD (defaultVessels d)) vessel = none := by
    intro vessel
    unfold modifiedScore
    by_cases hv : vessel ∈ parameters.vessels.getD (defaultVessels d)
    · rw [if_pos hv]
      cases calculateRiskScore d vessel with
      | error e => rfl
      | ok b =>
        dsimp only
        rw [if_neg h1, if_neg h2]
    · rw [if_neg hv]
  refine ⟨?_, hmod, rfl⟩
  show (scenarioFold d (modifiedScore d scenario_name
    (parameters.defect_reduction.getD 20)
    (parameters.age_risk_reduction.getD 15)
    (parameters.vessels.getD (defaultVessels d)))
    (parameters.vessels.getD (defaultVessels d))).1 = []
  rw [scenarioFold, foldl_scenarioStep_const d _ hmod]

/-- C8 witness: the unrecognised scenario "flag_change" on a small
concrete dataset. -/
theorem unknown_scenario_empty_witness :
    (simulateScenario { vessels := [], vessel_performance := [] } "flag_change"
      { vessels := some ["V"], defect_reduction := none,
        age_risk_reduction := none }).vessels_analyzed = [] ∧
    (∀ vessel, modifiedScore { vessels := [], vessel_performance := [] }
      "flag_change"
      ((none : Option ℚ).getD 20) ((none : Option ℚ).getD 15)
      ((some ["V"]).getD
        (defaultVessels { vessels := [], vessel_performance := [] }))
      vessel = none) ∧
    (simulateScenario { vessels := [], vessel_performance := [] } "flag_change"
      { vessels := some ["V"], defect_reduction := none,
        age_risk_reduction := none }).error = none :=
  unknown_scenario_empty { vessels := [], vessel_performance := [] }
    { vessels := some ["V"], defect_reduction := none, age_risk_reduction := none }
    "flag_change" (by decide) (by decide)

/-! ### Scenario-simulator helper lemmas and fixture evaluations -/

theorem simulateScenario_analyzed (d : CalculatorData) (scenario_name : String)
    (parameters : ScenarioParameters) :
    (simulateScenario d scenario_name parameters).vessels_analyzed =
      (scenarioFold d (modifiedScore d scenario_name
        (parameters.defect_reduction.getD 20)
        (parameters.age_risk_reduction.getD 15)
        (parameters.vessels.getD (defaultVessels d)))
        (parameters.vessels.getD (defaultVessels d))).1 := rfl

theorem simulateScenario_avg (d : CalculatorData) (scenario_name : String)
    (parameters : ScenarioParameters) :
    (simulateScenario d scenario_name parameters).summary.average_risk_reduction =
      roundTo (if parameters.vessels.getD (defaultVessels d) ≠ [] then
          (scenarioFold d (modifiedScore d scenario_name
            (parameters.defect_reduction.getD 20)
            (parameters.age_risk_reduction.getD 15)
            (parameters.vessels.getD (defaultVessels d)))
            (parameters.vessels.getD (defaultVessels d))).2.1 /
          ((parameters.vessels.getD (defaultVessels d)).length : ℚ)
        else 0) 2 := rfl

theorem scoreB_eval : calculateRiskScore dataB "V" = .ok resB := by
  simp [calculateRiskScore, findVessel, findInspection, dataB, vesselB, resB,
    List.find?, calculate_age_factor, age_weights, ageFactorScan,
    calculate_history_factor, calculate_mou_factor, flag_risk_modifier,
    type_risk_modifier, class_risk_modifier, composeRisk, get_risk_category,
    roundTo, round_eq]
  norm_num [Int.floor_eq_iff]

theorem modB_eval :
    modifiedScore dataB "training_impact" 0 15 ["V"] "V" =
      some (808/25, "MEDIUM") := by
  rw [modifiedScore, if_pos (by decide), scoreB_eval]
  simp [resB, composeRisk, get_risk_category]
  norm_num

theorem analyzedB_eval :
    (simulateScenario dataB "training_impact" paramsB).vessels_analyzed =
      [entryB] := by
  rw [simulateScenario_analyzed]
  show (scenarioFold dataB
    (modifiedScore dataB "training_impact" 0 15 ["V"]) ["V"]).1 = _
  rw [scenarioFold, List.foldl_cons, List.foldl_nil, scenarioStep, scoreB_eval,
    modB_eval]
  dsimp only
  simp [resB, entryB]
  norm_num

theorem roundTo_one_close (x : ℚ) : |roundTo x 1 - x| ≤ 1/20 := by
  have h := abs_sub_round (x * 10 ^ (1 : ℕ))
  have heq : roundTo x 1 - x =
      -((x * 10 ^ (1 : ℕ) - ((round (x * 10 ^ (1 : ℕ)) : ℤ) : ℚ)) / 10 ^ (1 : ℕ)) := by
    unfold roundTo
    ring
  rw [heq, abs_neg, abs_div, abs_of_pos (by positivity : (0 : ℚ) < 10 ^ (1 : ℕ)),
    div_le_iff₀ (by positivity : (0 : ℚ) < 10 ^ (1 : ℕ))]
  calc |x * 10 ^ (1 : ℕ) - ((round (x * 10 ^ (1 : ℕ)) : ℤ) : ℚ)| ≤ 1/2 := h
    _ ≤ 1/20 * 10 ^ (1 : ℕ) := by norm_num

theorem clamp_sub_le (x y : ℚ) : |clamp 0 100 x - clamp 0 100 y| ≤ |x - y| := by
  calc |clamp 0 100 x - clamp 0 100 y|
      ≤ max |(0 : ℚ) - 0| |min 100 x - min 100 y| := abs_max_sub_max_le_max _ _ _ _
    _ = |min 100 x - min 100 y| := by
        rw [sub_self, abs_zero, max_eq_right (abs_nonneg _)]
    _ ≤ max |(100 : ℚ) - 100| |x - y| := abs_min_sub_min_le_max _ _ _ _
    _ = |x - y| := by rw [sub_self, abs_zero, max_eq_right (abs_nonneg _)]

theorem composeRisk_close (a h m a' h' m' : ℚ)
    (ha : |a' - a| ≤ 1/20) (hh : |h' - h| ≤ 1/20) (hm : |m' - m| ≤ 1/20) :
    |composeRisk a' h' m' - composeRisk a h m| ≤ 1/20 := by
  have hc : |composeRisk a' h' m' - composeRisk a h m| ≤
      |(a' * 0.4 + h' * 0.4 + m' * 0.2) - (a * 0.4 + h * 0.4 + m * 0.2)| :=
    clamp_sub_le _ _
  have hw : (a' * 0.4 + h' * 0.4 + m' * 0.2) - (a * 0.4 + h * 0.4 + m * 0.2) =
      (a' - a) * 0.4 + ((h' - h) * 0.4 + (m' - m) * 0.2) := by ring
  rw [hw] at hc
  have h1 : |(a' - a) * 0.4 + ((h' - h) * 0.4 + (m' - m) * 0.2)| ≤
      |(a' - a) * 0.4| + (|(h' - h) * 0.4| + |(m' - m) * 0.2|) :=
    le_trans (abs_add _ _) (by gcongr; exact abs_add _ _)
  rw [abs_mul, abs_mul, abs_mul] at h1
  have c4 : |(0.4 : ℚ)| = 0.4 := by norm_num
  have c2 : |(0.2 : ℚ)| = 0.2 := by norm_num
  rw [c4, c2] at h1
  nlinarith [abs_nonneg (a' - a), abs_nonneg (h' - h), abs_nonneg (m' - m)]

theorem calculateRiskScore_ok_spec (d : CalculatorData) (vessel_name : String)
    (b : RiskResult) (hb : calculateRiskScore d vessel_name = .ok b) :
    ∃ vi, findVessel d vessel_name = some vi ∧
      b.risk_score = roundTo (composeRisk (calculate_age_factor vi.age_years)
        (calculate_history_factor (findInspection d vessel_name))
        (calculate_mou_factor vi)) 1 ∧
      b.factor_breakdown.age_factor =
        roundTo (calculate_age_factor vi.age_years) 1 ∧
      b.factor_breakdown.history_factor =
        roundTo (calculate_history_factor (findInspection d vessel_name)) 1 ∧
      b.factor_breakdown.mou_factor = roundTo (calculate_mou_factor vi) 1 := by
  unfold calculateRiskScore at hb
  cases hv : findVessel d vessel_name with
  | none => rw [hv] at hb; exact absurd hb (by simp)
  | some vi =>
    rw [hv] at hb
    cases hb
    exact ⟨vi, rfl, rfl, rfl, rfl, rfl⟩

theorem scenarioFold_mem (d : CalculatorData)
    (modified : String → Option (ℚ × String)) (l : List String) :
    ∀ (acc : List VesselAnalysis × ℚ × ℕ) (entry : VesselAnalysis),
      entry ∈ (l.foldl (scenarioStep d modified) acc).1 →
      entry ∈ acc.1 ∨
      ∃ v b ms mc, calculateRiskScore d v = .ok b ∧ modified v = some (ms, mc) ∧
        entry = { vessel_name := v, baseline_score := b.risk_score,
                  modified_score := ms, risk_reduction := b.risk_score - ms,
                  baseline_category := b.risk_category,
                  modified_category := mc } := by
  induction l with
  | nil => exact fun acc entry h => .inl h
  | cons v rest ih =>
    intro acc entry h
    rw [List.foldl_cons] at h
    rcases ih _ entry h with hacc | hex
    · unfold scenarioStep at hacc
      cases hsc : calculateRiskScore d v with
      | error e => rw [hsc] at hacc; exact .inl hacc
      | ok b =>
        rw [hsc] at hacc
        cases hmv : modified v with
        | none => rw [hmv] at hacc; exact .inl hacc
        | some p =>
          rw [hmv] at hacc
          obtain ⟨ms, mc⟩ := p
          dsimp only at hacc
          rcases List.mem_append.1 hacc with hin | hone
          · exact .inl hin
          · exact .inr ⟨v, b, ms, mc, hsc, hmv, List.mem_singleton.1 hone⟩
    · exact .inr hex

theorem scoreC_eval : calculateRiskScore dataC "V" = .ok resC := by
  simp [calculateRiskScore, findVessel, findInspection, dataC, vesselC, resC,
    List.find?, calculate_age_factor, age_weights, ageFactorScan,
    calculate_history_factor, calculate_mou_factor, flag_risk_modifier,
    type_risk_modifier, class_risk_modifier, composeRisk, get_risk_category,
    roundTo, round_eq]
  norm_num [Int.floor_eq_iff]

theorem scoreG_eval : calculateRiskScore dataC "G" =
    .error ("Vessel " ++ "G" ++ " not found in master data") := by
  rw [calculateRiskScore]
  have h : findVessel dataC "G" = none := by
    simp [findVessel, dataC, vesselC, List.find?]
  rw [h]

theorem modC_eval :
    modifiedScore dataC "training_impact" 50 15 ["V", "G"] "V" =
      some (60, "HIGH") := by
  rw [modifiedScore, if_pos (by decide), scoreC_eval]
  simp [resC, composeRisk, get_risk_category]
  norm_num

theorem foldC_eval :
    scenarioFold dataC (modifiedScore dataC "training_impact" 50 15 ["V", "G"])
      ["V", "G"] = ([entryC], 10, 1) := by
  rw [scenarioFold, List.foldl_cons, scenarioStep, scoreC_eval, modC_eval]
  dsimp only
  rw [List.foldl_cons, List.foldl_nil, scenarioStep, scoreG_eval]
  dsimp only
  simp [resC, entryC]
  norm_num

theorem scenarioStep_total (d : CalculatorData)
    (modified : String → Option (ℚ × String)) (acc : List VesselAnalysis × ℚ × ℕ)
    (vessel : String) :
    (scenarioStep d modified acc vessel).2.1 -
      (((scenarioStep d modified acc vessel).1).map (·.risk_reduction)).sum =
    acc.2.1 - (acc.1.map (·.risk_reduction)).sum := by
  unfold scenarioStep
  cases hsc : calculateRiskScore d vessel with
  | error e => rfl
  | ok b =>
    cases hm : modified vessel with
    | none => rfl
    | some p =>
      obtain ⟨ms, mc⟩ := p
      dsimp only
      rw [List.map_append, List.sum_append]
      simp

theorem scenarioFold_total_eq (d : CalculatorData)
    (modified : String → Option (ℚ × String)) (vessels : List String) :
    (scenarioFold d modified vessels).2.1 =
      ((scenarioFold d modified vessels).1.map (·.risk_reduction)).sum := by
  have key : ∀ (l : List String) (acc : List VesselAnalysis × ℚ × ℕ),
      (l.foldl (scenarioStep d modified) acc).2.1 -
        ((l.foldl (scenarioStep d modified) acc).1.map (·.risk_reduction)).sum =
      acc.2.1 - (acc.1.map (·.risk_reduction)).sum := by
    intro l
    induction l with
    | nil => intro acc; rfl
    | cons v rest ih =>
      intro acc
      rw [List.foldl_cons, ih, scenarioStep_total]
  rw [scenarioFold]
  have h := key vessels ([], 0, 0)
  have hz : ((([], 0, 0) : List VesselAnalysis × ℚ × ℕ)).2.1 -
      ((((([], 0, 0) : List VesselAnalysis × ℚ × ℕ)).1).map
        (fun x => x.risk_reduction)).sum = 0 := by norm_num
  rw [hz] at h
  linarith [h]

/-- C6 counterexample: on `dataB` the "training_impact" scenario with
`defect_reduction = 0` produces a vessel whose modified score 32.32 differs
from its baseline score 32.3, because the modified score is recombined from
the one-decimal rounded factor breakdown and never re-rounded. -/
theorem training_zero_not_noop :
    (simulateScenario dataB "training_impact" paramsB).vessels_analyzed =
      [entryB] ∧
    entryB.modified_score ≠ entryB.baseline_score := by
  refine ⟨analyzedB_eval, ?_⟩
  show (808/25 : ℚ) ≠ 323/10
  norm_num

/-- C6 (amended): under "training_impact" with `defect_reduction = 0`,
every analysed vessel's modified score equals the recombination
`composeRisk` of the baseline's one-decimal rounded factor-breakdown
values — not the baseline score itself — and hence differs from the
baseline score by at most 0.1. -/
theorem training_zero_scores (d : CalculatorData)
    (parameters : ScenarioParameters)
    (hdr : parameters.defect_reduction = some 0) (entry : VesselAnalysis)
    (hmem : entry ∈
      (simulateScenario d "training_impact" parameters).vessels_analyzed) :
    (∃ b : RiskResult, calculateRiskScore d entry.vessel_name = .ok b ∧
      entry.baseline_score = b.risk_score ∧
      entry.modified_score = composeRisk b.factor_breakdown.age_factor
        b.factor_breakdown.history_factor b.factor_breakdown.mou_factor) ∧
    |entry.modified_score - entry.baseline_score| ≤ 1/10 := by
  rw [simulateScenario_analyzed, hdr, Option.getD_some, scenarioFold] at hmem
  rcases scenarioFold_mem d _ _ _ entry hmem with h0 | ⟨v, b, ms, mc, hsc, hmv, heq⟩
  · simp at h0
  · rw [modifiedScore] at hmv
    by_cases hvm : v ∈ parameters.vessels.getD (defaultVessels d)
    · rw [if_pos hvm, hsc] at hmv
      dsimp only at hmv
      rw [if_pos rfl] at hmv
      injection hmv with hpair
      have hms : ms = composeRisk b.factor_breakdown.age_factor
          (b.factor_breakdown.history_factor * (1 - 0 / 100.0))
          b.factor_breakdown.mou_factor := (congrArg Prod.fst hpair).symm
      have hone : b.factor_breakdown.history_factor * (1 - 0 / 100.0) =
          b.factor_breakdown.history_factor := by norm_num
      rw [hone] at hms
      obtain ⟨vi, hvi, hrs, hfa, hfh, hfm⟩ := calculateRiskScore_ok_spec d v b hsc
      subst heq
      refine ⟨⟨b, hsc, rfl, hms⟩, ?_⟩
      show |ms - b.risk_score| ≤ 1/10
      have hclose : |ms - composeRisk (calculate_age_factor vi.age_years)
          (calculate_history_factor (findInspection d v))
          (calculate_mou_factor vi)| ≤ 1/20 := by
        rw [hms, hfa, hfh, hfm]
        exact composeRisk_close _ _ _ _ _ _ (roundTo_one_close _)
          (roundTo_one_close _) (roundTo_one_close _)
      have hround : |composeRisk (calculate_age_factor vi.age_years)
          (calculate_history_factor (findInspection d v))
          (calculate_mou_factor vi) - b.risk_score| ≤ 1/20 := by
        rw [hrs, abs_sub_comm]
        exact roundTo_one_close _
      calc |ms - b.risk_score| ≤
          |ms - composeRisk (calculate_age_factor vi.age_years)
            (calculate_history_factor (findInspection d v))
            (calculate_mou_factor vi)| +
          |composeRisk (calculate_age_factor vi.age_years)
            (calculate_history_factor (findInspection d v))
            (calculate_mou_factor vi) - b.risk_score| := abs_sub_le _ _ _
        _ ≤ 1/10 := by linarith
    · rw [if_neg hvm] at hmv
      exact absurd hmv (by simp)

/-- C6 witness: the amended statement instantiated on `dataB`. -/
theorem training_zero_scores_witness :
    (∃ b : RiskResult, calculateRiskScore dataB entryB.vessel_name = .ok b ∧
      entryB.baseline_score = b.risk_score ∧
      entryB.modified_score = composeRisk b.factor_breakdown.age_factor
        b.factor_breakdown.history_factor b.factor_breakdown.mou_factor) ∧
    |entryB.modified_score - entryB.baseline_score| ≤ 1/10 :=
  training_zero_scores dataB paramsB rfl entryB
    (by rw [analyzedB_eval]; exact List.mem_singleton.2 rfl)

/-- C9 (amended): `average_risk_reduction` is the sum of the per-vessel
reductions recorded in `vessels_analyzed` divided by the number of
REQUESTED vessels (the `vessels` parameter, or every vessel with
inspection data when absent) and rounded to two decimals — not by the
number of vessels actually analysed; it is 0 when no vessel is
requested. -/
theorem average_reduction_over_requested (d : CalculatorData)
    (scenario_name : String) (parameters : ScenarioParameters) :
    (simulateScenario d scenario_name parameters).summary.average_risk_reduction =
      roundTo (if parameters.vessels.getD (defaultVessels d) = [] then 0
        else ((simulateScenario d scenario_name
            parameters).vessels_analyzed.map (·.risk_reduction)).sum /
          ((parameters.vessels.getD (defaultVessels d)).length : ℚ)) 2 := by
  rw [simulateScenario_avg, simulateScenario_analyzed, scenarioFold_total_eq,
    ite_not]

/-- C9 counterexample: requesting two vessels of which one is unknown, the
single analysed vessel has reduction 10, so the mean over the analysed
vessels is 10, yet the reported `average_risk_reduction` is 10/2 = 5. -/
theorem average_reduction_counterexample :
    (simulateScenario dataC "training_impact"
      paramsC).summary.average_risk_reduction = 5 ∧
    (simulateScenario dataC "training_impact" paramsC).vessels_analyzed =
      [entryC] ∧
    ((simulateScenario dataC "training_impact" paramsC).vessels_analyzed.map
        (·.risk_reduction)).sum /
      (((simulateScenario dataC "training_impact"
        paramsC).vessels_analyzed.length : ℚ)) = 10 ∧
    (5 : ℚ) ≠ 10 := by
  have hv : paramsC.vessels.getD (defaultVessels dataC) = ["V", "G"] := rfl
  have hd : paramsC.defect_reduction.getD 20 = 50 := rfl
  have ha : paramsC.age_risk_reduction.getD 15 = 15 := rfl
  have hanalyzed : (simulateScenario dataC "training_impact"
      paramsC).vessels_analyzed = [entryC] := by
    rw [simulateScenario_analyzed, hv, hd, ha, foldC_eval]
  refine ⟨?_, hanalyzed, ?_, by norm_num⟩
  · rw [simulateScenario_avg, hv, hd, ha, foldC_eval,
      if_pos (by decide : (["V", "G"] : List String) ≠ [])]
    norm_num [roundTo, round_eq]
  · rw [hanalyzed]
    norm_num [entryC]

end PSC
